import Mathlib

/-!
Shallow embedding of `src/phopyqthelper/widgets/console_output.py`.

The module defines two classes:

* `TextStream` — a stream-like adapter holding a reference to the original
  stream object, a source label and an append-only accumulation buffer.
  `write` appends to the buffer and emits a `text_written(text, source)`
  signal; if the emission raises, it falls back to writing through to the
  original stream, swallowing any failure of that fallback too.
* `ConsoleOutputWidget` — owns a read-only `QPlainTextEdit`, installs
  `TextStream` adapters over `sys.stdout` / `sys.stderr`, appends delivered
  text to the document, trims the document when `blockCount` exceeds
  `max_lines`, optionally auto-scrolls, fires an optional callback, and can
  restore the original streams.

Modelling choices:

* Python object identity is modelled by giving every stream object a `Nat`
  identity (`StreamId`); the global `sys.stdout` / `sys.stderr` slots hold
  `Option StreamId` (`none` models Python `None`), so Python `is` becomes
  equality of `Option StreamId` (including `None is None`).
* The `QPlainTextEdit` document is a `String`; `blockCount` is the number of
  newline-separated blocks (an empty document has one block, text ending in
  a newline has a trailing empty block, as in Qt).  Cursor movement by
  `Down` is block-wise, which assumes no soft line wrapping occurs.
* Exceptions are modelled explicitly: the callback is a function returning
  `Option Unit` (`none` models a raised exception); signal emission and the
  fallback write each get a `Bool` saying whether they succeed; the display
  mutation gets a `Bool` (`displayOk`) saying whether the `try` block body
  raises.  Code with no handler propagates; `except Exception` catches.
* Side effects on streams are logged: `append_text_internal` returns the
  list of callback invocations and the list of `(target, text)` fallback
  writes it performs.
-/

/-- Identity of a Python stream object (`sys.stdout`, a `TextStream`, ...). -/
abbrev StreamId := Nat

/-- The user-supplied text callback.  It receives `(text, source)`; a result
of `none` models the callback raising an exception. -/
abbrev Callback := String → String → Option Unit

/-- The process-global stream slots `sys.stdout` / `sys.stderr`, plus an
allocator counter producing fresh object identities. -/
structure Sys where
  stdoutSlot : Option StreamId
  stderrSlot : Option StreamId
  nextId : StreamId
deriving Repr, DecidableEq

/-- State of the `QPlainTextEdit`: its document text and the vertical
scrollbar position. -/
structure TextEdit where
  doc : String
  scrollValue : Nat
deriving Repr, DecidableEq

/-- Split a character list into its newline-separated blocks, as
`QTextDocument` counts them: the empty text has one (empty) block, and text
ending in a newline has a trailing empty block. -/
def splitLines (cs : List Char) : List (List Char) :=
  match cs with
  | [] => [[]]
  | c :: rest =>
      let r := splitLines rest
      if c = '\n' then [] :: r
      else
        match r with
        | [] => [[c]]
        | l :: ls => (c :: l) :: ls

/-- Join blocks back with newline separators (inverse of `splitLines`). -/
def joinLines (ls : List (List Char)) : List Char :=
  match ls with
  | [] => []
  | [l] => l
  | l :: ls => l ++ '\n' :: joinLines ls

/-- `document.blockCount()` of a document holding `doc`. -/
def blockCount (doc : String) : Nat :=
  (splitLines doc.toList).length

/-- The buffer-limiting step of `_append_text_internal` (lines 179-186 of the
source): if `blockCount > max_lines`, a cursor is placed at the start, moved
`Down` by the excess with `MoveAnchor` (capped at the last block), snapped to
`StartOfBlock`, extended to `End` with `KeepAnchor`, and the selection is
removed.  The text removed is therefore everything from the start of the
excess-th block to the end of the document. -/
def trimExcess (doc : String) (maxLines : Nat) : String :=
  let blocks := splitLines doc.toList
  let bc := blocks.length
  if bc > maxLines then
    let k := min (bc - maxLines) (bc - 1)
    if k = 0 then ""
    else String.mk (joinLines (blocks.take k) ++ ['\n'])
  else doc

/-- Model of `verticalScrollBar().maximum()` after the document has been
updated: a layout-determined monotone function of the document; we take the
block count. -/
def scrollMax (doc : String) : Nat :=
  blockCount doc

/-- The `TextStream` adapter: the original stream it wraps (`none` models a
`None` original), its append-only accumulation buffer and its source label. -/
structure TextStream where
  originalStream : Option StreamId
  buffer : String
  source : String
deriving Repr, DecidableEq

/-- Result of `TextStream.write`: the updated adapter, the `text_written`
signal emissions, the attempted write-throughs to the original stream, and
the Python return value (`len(text)` or `0`). -/
structure WriteResult where
  stream : TextStream
  emitted : List (String × String)
  fallback : List (StreamId × String)
  retVal : Nat
deriving Repr, DecidableEq

/-- `TextStream.write` (source lines 30-44).  `emitOk` says whether the
signal emission succeeds, `fbOk` whether a fallback write to the original
stream succeeds; a failing fallback write is caught by the inner
`except Exception: pass`.  The result is in `Except` so that an uncaught
exception would be visible as `Except.error`. -/
def TextStream.write (ts : TextStream) (text : String) (emitOk fbOk : Bool) :
    Except String WriteResult :=
  if text = "" then
    Except.ok { stream := ts, emitted := [], fallback := [], retVal := 0 }
  else
    let ts' : TextStream := { ts with buffer := ts.buffer ++ text }
    if emitOk then
      Except.ok { stream := ts', emitted := [(text, ts.source)], fallback := [],
                  retVal := text.length }
    else
      match ts.originalStream with
      | some orig =>
          let attempt : Except String Unit :=
            if fbOk then Except.ok () else Except.error "fallback write raised"
          match attempt with
          | Except.ok _ =>
              Except.ok { stream := ts', emitted := [], fallback := [(orig, text)],
                          retVal := text.length }
          | Except.error _ =>
              Except.ok { stream := ts', emitted := [], fallback := [(orig, text)],
                          retVal := text.length }
      | none =>
          Except.ok { stream := ts', emitted := [], fallback := [],
                      retVal := text.length }

/-- `TextStream.flush` (source lines 47-50): delegates to the original stream
when present; the adapter state (in particular its buffer) is untouched.
Returns the list of streams whose `flush` was invoked. -/
def TextStream.flush (ts : TextStream) : TextStream × List StreamId :=
  match ts.originalStream with
  | some orig => (ts, [orig])
  | none => (ts, [])

/-- State of a `ConsoleOutputWidget`. -/
structure ConsoleOutputWidget where
  originalStdout : Option StreamId
  originalStderr : Option StreamId
  stdoutStream : Option StreamId
  stderrStream : Option StreamId
  captureStdout : Bool
  captureStderr : Bool
  callback : Option Callback
  maxLines : Nat
  autoScroll : Bool
  textEdit : Option TextEdit

/-- `ConsoleOutputWidget.__init__` plus `_setup_ui` / `_setup_streams`
(source lines 92-146): record the current global streams as the originals,
create the text edit, and for each enabled capture flag allocate a fresh
adapter object and install it into the global slot. -/
def ConsoleOutputWidget.init (sys : Sys) (captureStdout captureStderr : Bool)
    (cb : Option Callback) (maxLines : Nat) : ConsoleOutputWidget × Sys :=
  let w0 : ConsoleOutputWidget :=
    { originalStdout := sys.stdoutSlot
    , originalStderr := sys.stderrSlot
    , stdoutStream := none
    , stderrStream := none
    , captureStdout := captureStdout
    , captureStderr := captureStderr
    , callback := cb
    , maxLines := maxLines
    , autoScroll := true
    , textEdit := some { doc := "", scrollValue := 0 } }
  let step1 : ConsoleOutputWidget × Sys :=
    if captureStdout then
      ({ w0 with stdoutStream := some sys.nextId },
       { sys with stdoutSlot := some sys.nextId, nextId := sys.nextId + 1 })
    else (w0, sys)
  if captureStderr then
    ({ step1.1 with stderrStream := some step1.2.nextId },
     { step1.2 with stderrSlot := some step1.2.nextId, nextId := step1.2.nextId + 1 })
  else step1

/-- Effects of one `_append_text_internal` call. -/
structure AppendResult where
  state : ConsoleOutputWidget
  callbackCalls : List (String × String)
  fallbackWrites : List (StreamId × String)

/-- `_append_text_internal` (source lines 154-198).  `displayOk` says whether
the display-mutation `try` block runs without raising; when it raises we take
the exception to occur before any mutation.  The callback is invoked with the
literal `(text, source)`; its exception (result `none`) is swallowed by
`except Exception: pass`.  When the text edit is missing, or the display
mutation raises, the text is written through to `_original_stdout`. -/
def ConsoleOutputWidget.append_text_internal (w : ConsoleOutputWidget)
    (text source : String) (displayOk : Bool) : AppendResult :=
  if text = "" then
    { state := w, callbackCalls := [], fallbackWrites := [] }
  else
    let calls : List (String × String) :=
      match w.callback with
      | some cb =>
          match cb text source with
          | some _ => [(text, source)]
          | none => [(text, source)]
      | none => []
    match w.textEdit with
    | none =>
        match w.originalStdout with
        | some orig =>
            { state := w, callbackCalls := calls, fallbackWrites := [(orig, text)] }
        | none =>
            { state := w, callbackCalls := calls, fallbackWrites := [] }
    | some te =>
        if displayOk then
          let doc2 := te.doc ++ text
          let doc3 := trimExcess doc2 w.maxLines
          let scroll2 := if w.autoScroll then scrollMax doc3 else te.scrollValue
          { state := { w with textEdit := some { doc := doc3, scrollValue := scroll2 } },
            callbackCalls := calls, fallbackWrites := [] }
        else
          match w.originalStdout with
          | some orig =>
              { state := w, callbackCalls := calls, fallbackWrites := [(orig, text)] }
          | none =>
              { state := w, callbackCalls := calls, fallbackWrites := [] }

/-- `append_text` (source lines 201-208), with the source label explicit. -/
def ConsoleOutputWidget.append_text (w : ConsoleOutputWidget)
    (text source : String) (displayOk : Bool) : AppendResult :=
  w.append_text_internal text source displayOk

/-- `append_text` called with the default source label `"manual"`. -/
def ConsoleOutputWidget.append_text_default (w : ConsoleOutputWidget)
    (text : String) (displayOk : Bool) : AppendResult :=
  w.append_text text "manual" displayOk

/-- `_on_text_written` (source lines 149-151): the slot connected to each
adapter's `text_written` signal. -/
def ConsoleOutputWidget.on_text_written (w : ConsoleOutputWidget)
    (text source : String) : AppendResult :=
  w.append_text_internal text source true

/-- `_on_auto_scroll_toggled` (source lines 256-258). -/
def ConsoleOutputWidget.on_auto_scroll_toggled (w : ConsoleOutputWidget)
    (checked : Bool) : ConsoleOutputWidget :=
  { w with autoScroll := checked }

/-- `clear` (source lines 261-263): empties the visible document. -/
def ConsoleOutputWidget.clear (w : ConsoleOutputWidget) : ConsoleOutputWidget :=
  match w.textEdit with
  | some _ => { w with textEdit := some { doc := "", scrollValue := 0 } }
  | none => w

/-- `set_capture` (source lines 211-244): toggles each capture independently.
Enabling allocates a fresh adapter and installs it; disabling restores the
global slot only if it still holds this widget's adapter (`sys.stdout is
self._stdout_stream`), then drops the adapter reference. -/
def ConsoleOutputWidget.set_capture (w : ConsoleOutputWidget) (sys : Sys)
    (stdout stderr : Bool) : ConsoleOutputWidget × Sys :=
  let step1 : ConsoleOutputWidget × Sys :=
    if stdout && !w.captureStdout then
      ({ w with stdoutStream := some sys.nextId, captureStdout := true },
       { sys with stdoutSlot := some sys.nextId, nextId := sys.nextId + 1 })
    else if !stdout && w.captureStdout then
      let sys' :=
        if sys.stdoutSlot = w.stdoutStream then
          { sys with stdoutSlot := w.originalStdout }
        else sys
      ({ w with stdoutStream := none, captureStdout := false }, sys')
    else (w, sys)
  let w1 := step1.1
  let sys1 := step1.2
  if stderr && !w1.captureStderr then
    ({ w1 with stderrStream := some sys1.nextId, captureStderr := true },
     { sys1 with stderrSlot := some sys1.nextId, nextId := sys1.nextId + 1 })
  else if !stderr && w1.captureStderr then
    let sys2 :=
      if sys1.stderrSlot = w1.stderrStream then
        { sys1 with stderrSlot := w1.originalStderr }
      else sys1
    ({ w1 with stderrStream := none, captureStderr := false }, sys2)
  else (w1, sys1)

/-- `restore_streams` (source lines 266-271): restore each global slot only
if the adapter reference is non-`None` and the slot still holds it. -/
def ConsoleOutputWidget.restore_streams (w : ConsoleOutputWidget) (sys : Sys) : Sys :=
  let sys1 :=
    match w.stdoutStream with
    | some a => if sys.stdoutSlot = some a then { sys with stdoutSlot := w.originalStdout } else sys
    | none => sys
  match w.stderrStream with
  | some b => if sys1.stderrSlot = some b then { sys1 with stderrSlot := w.originalStderr } else sys1
  | none => sys1

/-- A widget together with its two installed adapters and a log of callback
invocations, for simulating writes to the captured streams. -/
structure SimState where
  widget : ConsoleOutputWidget
  stdoutStream : TextStream
  stderrStream : TextStream
  callLog : List (String × String)

/-- A freshly constructed widget capturing both streams: global stdout is
object `0`, global stderr object `1`; the adapters get identities `2`, `3`
and wrap the originals with source labels `"stdout"` / `"stderr"`. -/
def initSim (cb : Option Callback) (maxLines : Nat) : SimState :=
  let sys0 : Sys := { stdoutSlot := some 0, stderrSlot := some 1, nextId := 2 }
  let wi := ConsoleOutputWidget.init sys0 true true cb maxLines
  { widget := wi.1
  , stdoutStream := { originalStream := some 0, buffer := "", source := "stdout" }
  , stderrStream := { originalStream := some 1, buffer := "", source := "stderr" }
  , callLog := [] }

/-- Deliver the emissions of one adapter write to the widget through
`_on_text_written`, accumulating the callback log. -/
def deliverEmissions (s : SimState) (events : List (String × String)) : SimState :=
  events.foldl
    (fun acc ev =>
      let r := acc.widget.on_text_written ev.1 ev.2
      { acc with widget := r.state, callLog := acc.callLog ++ r.callbackCalls })
    s

/-- One `write` to the captured stdout adapter, with the signal emission
succeeding and delivered synchronously to the widget. -/
def simWriteStdout (s : SimState) (text : String) : SimState :=
  match s.stdoutStream.write text true true with
  | Except.ok r => deliverEmissions { s with stdoutStream := r.stream } r.emitted
  | Except.error _ => s

/-- One `write` to the captured stderr adapter, likewise. -/
def simWriteStderr (s : SimState) (text : String) : SimState :=
  match s.stderrStream.write text true true with
  | Except.ok r => deliverEmissions { s with stderrStream := r.stream } r.emitted
  | Except.error _ => s

/-- The visible document of a simulated widget. -/
def docOf (s : SimState) : String :=
  match s.widget.textEdit with
  | some te => te.doc
  | none => ""

/-- The spec's worked example: `max_lines = 3`, then write `"a\n"`, `"b\n"`,
`"c\n"` sequentially to the captured stdout. -/
def exampleSim3 : SimState :=
  simWriteStdout (simWriteStdout (simWriteStdout (initSim none 3) "a\n") "b\n") "c\n"

/-- The spec's worked example continued with the fourth write `"d\n"`. -/
def exampleSimFinal : SimState :=
  simWriteStdout exampleSim3 "d\n"


/-- Concatenation of a list of texts, in order. -/
def concatTexts : List String → String
  | [] => ""
  | t :: ts => t ++ concatTexts ts

/-- The adapter after a sequence of writes (signal emission succeeding). -/
def foldWrites (ts : TextStream) (texts : List String) : TextStream :=
  texts.foldl
    (fun s t =>
      match s.write t true true with
      | Except.ok r => r.stream
      | Except.error _ => s)
    ts

/-- The buffer after one `write` is always the old buffer with the text
appended (for empty text the buffer is unchanged, which is the same thing). -/
theorem write_buffer_eq (ts : TextStream) (text : String) (emitOk fbOk : Bool) :
    ∃ r : WriteResult, ts.write text emitOk fbOk = Except.ok r ∧
      r.stream.buffer = ts.buffer ++ text ∧
      r.stream.source = ts.source ∧
      r.stream.originalStream = ts.originalStream := by
  by_cases h : text = "" <;>
    cases emitOk <;> cases fbOk <;> cases h0 : ts.originalStream <;>
      simp [TextStream.write, h, h0]

/-- C1: the spec's worked example refutes the claimed trimming behaviour.
With `max_lines = 3`, writing "a\n", "b\n", "c\n", "d\n" sequentially to the
captured stdout is required to leave exactly the lines b, c, d; the code's
trim instead selects from the start of the excess block to the END of the
document and deletes that, so it drops the newest lines and keeps the oldest:
the final visible document is "a\nd\n", not "b\nc\nd\n". -/
theorem trim_drops_newest_keeps_oldest :
    docOf exampleSimFinal = "a\nd\n" ∧ docOf exampleSimFinal ≠ "b\nc\nd\n" := by
  decide

/-- C2: refutation of "every captured write ends up appended to the visible
buffer".  With `max_lines = 3`, after the writes "a\n", "b\n", "c\n" to the
captured stdout, the trim that runs inside the very append that inserted
"c\n" removes it again: the visible document is "a\n" and contains no `c`. -/
theorem captured_write_lost_on_trim :
    docOf exampleSim3 = "a\n" ∧ 'c' ∉ (docOf exampleSim3).toList := by
  decide

/-- C6: `TextStream.write` never raises to its caller: for every text and
every outcome of the signal emission and of the fallback write, the result is
`Except.ok`; for non-empty text the buffer grows by exactly the text, a
successful emission carries `(text, source)`, and a failed emission produces
a write-through to the original stream when one is present (its own failure
being swallowed, as the result is `ok` for both values of `fbOk`). -/
theorem textstream_write_never_raises (ts : TextStream) (text : String)
    (emitOk fbOk : Bool) :
    (∃ r : WriteResult, ts.write text emitOk fbOk = Except.ok r) ∧
    (text ≠ "" →
      ∃ r : WriteResult, ts.write text emitOk fbOk = Except.ok r ∧
        r.stream.buffer = ts.buffer ++ text ∧
        (emitOk = true → r.emitted = [(text, ts.source)] ∧ r.fallback = []) ∧
        (emitOk = false → r.emitted = [] ∧
          r.fallback = (ts.originalStream.map (fun o => (o, text))).toList)) := by
  by_cases h : text = "" <;>
    cases emitOk <;> cases fbOk <;> cases h0 : ts.originalStream <;>
      simp [TextStream.write, h, h0]

/-- C6 witness: the characterization at a concrete adapter and text, with a
failing emission and failing fallback write. -/
theorem textstream_write_never_raises_witness :
    (∃ r : WriteResult,
        TextStream.write { originalStream := some 0, buffer := "b", source := "stderr" }
          "x" false false = Except.ok r) ∧
    ((("x" : String) ≠ "") →
      ∃ r : WriteResult,
        TextStream.write { originalStream := some 0, buffer := "b", source := "stderr" }
          "x" false false = Except.ok r ∧
        r.stream.buffer = ("b" : String) ++ "x" ∧
        ((false = true) → r.emitted = [("x", "stderr")] ∧ r.fallback = []) ∧
        ((false = false) → r.emitted = [] ∧
          r.fallback = ((some 0 : Option StreamId).map (fun o => (o, "x"))).toList)) :=
  textstream_write_never_raises
    { originalStream := some 0, buffer := "b", source := "stderr" } "x" false false

/-- C7: empty text is a no-op on both entry points: `_append_text_internal`
returns with the widget unchanged, no callback invocation and no fallback
write, and `TextStream.write` leaves the adapter unchanged, emits nothing and
returns `0`. -/
theorem empty_text_is_noop (w : ConsoleOutputWidget) (source : String)
    (displayOk : Bool) (ts : TextStream) (emitOk fbOk : Bool) :
    w.append_text_internal "" source displayOk =
      { state := w, callbackCalls := [], fallbackWrites := [] } ∧
    ts.write "" emitOk fbOk =
      Except.ok { stream := ts, emitted := [], fallback := [], retVal := 0 } :=
  ⟨rfl, rfl⟩

/-- C9: the adapter's accumulation buffer is append-only: each `write` grows
it by exactly the written text (whatever the emission or fallback outcomes),
`flush` leaves it unchanged, and after any sequence of writes it equals the
initial buffer followed by the concatenation of all the texts in order. -/
theorem adapter_buffer_append_only (ts : TextStream) (text : String)
    (emitOk fbOk : Bool) (texts : List String) :
    (∃ r : WriteResult, ts.write text emitOk fbOk = Except.ok r ∧
        r.stream.buffer = ts.buffer ++ text) ∧
    (ts.flush).1.buffer = ts.buffer ∧
    (foldWrites ts texts).buffer = ts.buffer ++ concatTexts texts := by
  refine ⟨?_, ?_, ?_⟩
  · obtain ⟨r, hr, hb, _⟩ := write_buffer_eq ts text emitOk fbOk
    exact ⟨r, hr, hb⟩
  · cases h0 : ts.originalStream <;> simp [TextStream.flush, h0]
  · induction texts generalizing ts with
    | nil => simp [foldWrites, concatTexts]
    | cons t rest ih =>
        obtain ⟨r, hr, hb, _, _⟩ := write_buffer_eq ts t true true
        have : foldWrites ts (t :: rest) = foldWrites r.stream rest := by
          simp [foldWrites, hr]
        rw [this, ih r.stream, hb, concatTexts, String.append_assoc]

/-- With a registered callback and non-empty text, `_append_text_internal`
logs exactly one callback invocation, carrying the literal text and source,
whatever the callback does and whatever branch the display path takes. -/
theorem append_calls_eq (w : ConsoleOutputWidget) (cb : Callback)
    (text source : String) (displayOk : Bool)
    (ht : text ≠ "") (hcb : w.callback = some cb) :
    (w.append_text_internal text source displayOk).callbackCalls = [(text, source)] := by
  cases hc : cb text source <;> cases hte : w.textEdit <;>
    cases ho : w.originalStdout <;> cases displayOk <;>
      simp [ConsoleOutputWidget.append_text_internal, ht, hcb, hc, hte, ho]

/-- The widget state produced by `_append_text_internal` does not depend on
the registered callback (in particular not on whether it raises): it equals
the state produced with no callback, with the callback field put back. -/
theorem append_state_callback_independent (w : ConsoleOutputWidget)
    (cbo : Option Callback) (text source : String) (displayOk : Bool) :
    (ConsoleOutputWidget.append_text_internal { w with callback := cbo }
        text source displayOk).state =
      { (ConsoleOutputWidget.append_text_internal { w with callback := none }
          text source displayOk).state with callback := cbo } := by
  by_cases ht : text = "" <;>
    cases hte : w.textEdit <;> cases ho : w.originalStdout <;> cases displayOk <;>
      simp [ConsoleOutputWidget.append_text_internal, ht, hte, ho]

/-- One captured-stdout write with a registered callback extends the callback
log by exactly one entry: the literal text tagged with the adapter's source. -/
theorem simWriteStdout_callLog (s : SimState) (cb : Callback) (text : String)
    (ht : text ≠ "") (hcb : s.widget.callback = some cb) :
    (simWriteStdout s text).callLog =
      s.callLog ++ [(text, s.stdoutStream.source)] := by
  simp only [simWriteStdout, TextStream.write, if_neg ht]
  simp [deliverEmissions, ConsoleOutputWidget.on_text_written,
    append_calls_eq _ cb _ _ _ ht hcb]

/-- One captured-stderr write likewise. -/
theorem simWriteStderr_callLog (s : SimState) (cb : Callback) (text : String)
    (ht : text ≠ "") (hcb : s.widget.callback = some cb) :
    (simWriteStderr s text).callLog =
      s.callLog ++ [(text, s.stderrStream.source)] := by
  simp only [simWriteStderr, TextStream.write, if_neg ht]
  simp [deliverEmissions, ConsoleOutputWidget.on_text_written,
    append_calls_eq _ cb _ _ _ ht hcb]

/-- C3: with a callback registered, every non-empty delivery invokes it
exactly once with the literal text and the correct source label — the
adapters constructed for stdout/stderr carry the labels "stdout"/"stderr"
and an end-to-end captured write logs exactly one call with that label, and
the public `append_text` defaults the label to "manual" — and the resulting
widget state is independent of the callback, so a raising callback changes
nothing about the displayed text, now or for later appends. -/
theorem callback_once_literal_and_isolated (w : ConsoleOutputWidget)
    (cb : Callback) (cbo : Option Callback) (text source : String)
    (displayOk : Bool) (maxLines : Nat) (s : SimState) (ht : text ≠ "") :
    (w.callback = some cb →
      (w.append_text_internal text source displayOk).callbackCalls = [(text, source)]) ∧
    ((initSim (some cb) maxLines).stdoutStream.source = "stdout" ∧
     (initSim (some cb) maxLines).stderrStream.source = "stderr") ∧
    (w.callback = some cb →
      (w.append_text_default text displayOk).callbackCalls = [(text, "manual")]) ∧
    (s.widget.callback = some cb →
      (simWriteStdout s text).callLog = s.callLog ++ [(text, s.stdoutStream.source)] ∧
      (simWriteStderr s text).callLog = s.callLog ++ [(text, s.stderrStream.source)]) ∧
    (ConsoleOutputWidget.append_text_internal { w with callback := cbo }
        text source displayOk).state =
      { (ConsoleOutputWidget.append_text_internal { w with callback := none }
          text source displayOk).state with callback := cbo } := by
  refine ⟨fun hcb => append_calls_eq w cb text source displayOk ht hcb,
    ⟨rfl, rfl⟩,
    fun hcb => append_calls_eq w cb text "manual" displayOk ht hcb,
    fun hcb => ⟨simWriteStdout_callLog s cb text ht hcb,
      simWriteStderr_callLog s cb text ht hcb⟩,
    append_state_callback_independent w cbo text source displayOk⟩

/-- A sample widget used to instantiate theorems with hypotheses: callback
registered and raising, display ready with one line of content. -/
def sampleWidget : ConsoleOutputWidget :=
  { originalStdout := some 0
  , originalStderr := some 1
  , stdoutStream := some 2
  , stderrStream := some 3
  , captureStdout := true
  , captureStderr := true
  , callback := some (fun _ _ => none)
  , maxLines := 10
  , autoScroll := true
  , textEdit := some { doc := "a\n", scrollValue := 0 } }

/-- C3 witness: the conjunction at a concrete widget whose callback raises. -/
theorem callback_once_literal_and_isolated_witness :
    ((sampleWidget.callback = some (fun _ _ => none) →
      (sampleWidget.append_text_internal "x" "stderr" true).callbackCalls
        = [("x", "stderr")]) ∧
    ((initSim (some (fun _ _ => none)) 3).stdoutStream.source = "stdout" ∧
     (initSim (some (fun _ _ => none)) 3).stderrStream.source = "stderr") ∧
    (sampleWidget.callback = some (fun _ _ => none) →
      (sampleWidget.append_text_default "x" true).callbackCalls = [("x", "manual")]) ∧
    ((initSim (some (fun _ _ => none)) 3).widget.callback = some (fun _ _ => none) →
      (simWriteStdout (initSim (some (fun _ _ => none)) 3) "x").callLog
        = (initSim (some (fun _ _ => none)) 3).callLog
          ++ [("x", (initSim (some (fun _ _ => none)) 3).stdoutStream.source)] ∧
      (simWriteStderr (initSim (some (fun _ _ => none)) 3) "x").callLog
        = (initSim (some (fun _ _ => none)) 3).callLog
          ++ [("x", (initSim (some (fun _ _ => none)) 3).stderrStream.source)]) ∧
    (ConsoleOutputWidget.append_text_internal
        { sampleWidget with callback := some (fun _ _ => none) } "x" "stderr" true).state =
      { (ConsoleOutputWidget.append_text_internal
          { sampleWidget with callback := none } "x" "stderr" true).state
        with callback := some (fun _ _ => none) }) :=
  callback_once_literal_and_isolated sampleWidget (fun _ _ => none)
    (some (fun _ _ => none)) "x" "stderr" true 3
    (initSim (some (fun _ _ => none)) 3) (by decide)

/-- C8: appending with auto-scroll toggled off leaves the scroll position
exactly as it was; appending with auto-scroll toggled on sets the scroll
position to the scrollbar maximum for the updated document (newest line
visible). -/
theorem auto_scroll_append_behavior (w : ConsoleOutputWidget) (te : TextEdit)
    (text source : String) (hte : w.textEdit = some te) (ht : text ≠ "") :
    (∃ te' : TextEdit,
        ((w.on_auto_scroll_toggled false).append_text_internal text source true).state.textEdit
          = some te' ∧ te'.scrollValue = te.scrollValue) ∧
    (∃ te' : TextEdit,
        ((w.on_auto_scroll_toggled true).append_text_internal text source true).state.textEdit
          = some te' ∧ te'.scrollValue = scrollMax te'.doc) := by
  cases hcb : w.callback <;>
    simp [ConsoleOutputWidget.append_text_internal,
      ConsoleOutputWidget.on_auto_scroll_toggled, ht, hte, hcb]

/-- C8 witness: the behaviour at a concrete ready widget and text. -/
theorem auto_scroll_append_behavior_witness :
    (∃ te' : TextEdit,
        ((sampleWidget.on_auto_scroll_toggled false).append_text_internal
            "x" "manual" true).state.textEdit = some te' ∧
          te'.scrollValue = ({ doc := "a\n", scrollValue := 0 } : TextEdit).scrollValue) ∧
    (∃ te' : TextEdit,
        ((sampleWidget.on_auto_scroll_toggled true).append_text_internal
            "x" "manual" true).state.textEdit = some te' ∧
          te'.scrollValue = scrollMax te'.doc) :=
  auto_scroll_append_behavior sampleWidget { doc := "a\n", scrollValue := 0 }
    "x" "manual" rfl (by decide)

/-- C10: whenever the append path takes a fallback branch — the text edit
missing, or the display mutation raising — the write-through goes to the
original stdout recorded at construction, whatever the source label (so
stderr-sourced text is also written to the original stdout, never to the
original stderr when the two differ). -/
theorem fallback_targets_original_stdout (w : ConsoleOutputWidget)
    (text source : String) (displayOk : Bool) (o : StreamId)
    (ht : text ≠ "") (ho : w.originalStdout = some o) :
    (w.textEdit = none →
      (w.append_text_internal text source displayOk).fallbackWrites = [(o, text)]) ∧
    (displayOk = false →
      (w.append_text_internal text source displayOk).fallbackWrites = [(o, text)]) ∧
    (∀ p ∈ (w.append_text_internal text source displayOk).fallbackWrites, p.1 = o) ∧
    (∀ e : StreamId, w.originalStderr = some e → e ≠ o →
      ∀ p ∈ (w.append_text_internal text source displayOk).fallbackWrites, p.1 ≠ e) := by
  have hmain :
      (w.textEdit = none →
        (w.append_text_internal text source displayOk).fallbackWrites = [(o, text)]) ∧
      (displayOk = false →
        (w.append_text_internal text source displayOk).fallbackWrites = [(o, text)]) ∧
      (∀ p ∈ (w.append_text_internal text source displayOk).fallbackWrites, p.1 = o) := by
    cases hcb : w.callback <;> cases hte : w.textEdit <;> cases displayOk <;>
      simp [ConsoleOutputWidget.append_text_internal, ht, hcb, hte, ho]
  refine ⟨hmain.1, hmain.2.1, hmain.2.2, ?_⟩
  intro e _ hne p hp
  rw [hmain.2.2 p hp]
  exact fun h => hne h.symm

/-- C10 witness: a widget whose text edit is missing, receiving
stderr-labelled text, writes it through to the original stdout (object 0),
not to the original stderr (object 1). -/
theorem fallback_targets_original_stdout_witness :
    (({ sampleWidget with textEdit := none } : ConsoleOutputWidget).textEdit = none →
      (({ sampleWidget with textEdit := none } : ConsoleOutputWidget).append_text_internal
          "boom" "stderr" true).fallbackWrites = [(0, "boom")]) ∧
    ((true = false) →
      (({ sampleWidget with textEdit := none } : ConsoleOutputWidget).append_text_internal
          "boom" "stderr" true).fallbackWrites = [(0, "boom")]) ∧
    (∀ p ∈ (({ sampleWidget with textEdit := none } : ConsoleOutputWidget).append_text_internal
        "boom" "stderr" true).fallbackWrites, p.1 = 0) ∧
    (∀ e : StreamId,
      ({ sampleWidget with textEdit := none } : ConsoleOutputWidget).originalStderr = some e →
      e ≠ 0 →
      ∀ p ∈ (({ sampleWidget with textEdit := none } : ConsoleOutputWidget).append_text_internal
          "boom" "stderr" true).fallbackWrites, p.1 ≠ e) :=
  fallback_targets_original_stdout { sampleWidget with textEdit := none }
    "boom" "stderr" true 0 (by decide) rfl

/-- C4: constructing with both capture flags enabled installs this widget's
adapters into the global slots and records the pre-capture streams, and a
subsequent `set_capture(False, False)` restores both global slots to exactly
the recorded original stream identities. -/
theorem set_capture_disable_restores_identity (sys : Sys) (cb : Option Callback)
    (maxLines : Nat) :
    ((ConsoleOutputWidget.init sys true true cb maxLines).1.originalStdout
        = sys.stdoutSlot) ∧
    ((ConsoleOutputWidget.init sys true true cb maxLines).1.originalStderr
        = sys.stderrSlot) ∧
    ((ConsoleOutputWidget.init sys true true cb maxLines).2.stdoutSlot
        = (ConsoleOutputWidget.init sys true true cb maxLines).1.stdoutStream) ∧
    ((ConsoleOutputWidget.init sys true true cb maxLines).2.stderrSlot
        = (ConsoleOutputWidget.init sys true true cb maxLines).1.stderrStream) ∧
    ((ConsoleOutputWidget.set_capture
        (ConsoleOutputWidget.init sys true true cb maxLines).1
        (ConsoleOutputWidget.init sys true true cb maxLines).2 false false).2.stdoutSlot
      = sys.stdoutSlot) ∧
    ((ConsoleOutputWidget.set_capture
        (ConsoleOutputWidget.init sys true true cb maxLines).1
        (ConsoleOutputWidget.init sys true true cb maxLines).2 false false).2.stderrSlot
      = sys.stderrSlot) := by
  simp [ConsoleOutputWidget.init, ConsoleOutputWidget.set_capture]

/-- C5: the global slots are single-valued, so at most one adapter is the
live redirection target of stdout (and of stderr) in any state; and every
restoring operation — `restore_streams` and the disabling branches of
`set_capture` — reverts a slot exactly when it still holds this widget's own
adapter, and leaves it untouched when a later redirector has replaced it. -/
theorem slot_single_owner_guarded_restore (w : ConsoleOutputWidget) (sys : Sys)
    (a b : StreamId) (so se : Bool) :
    ((sys.stdoutSlot = some a → sys.stdoutSlot = some b → a = b) ∧
     (sys.stderrSlot = some a → sys.stderrSlot = some b → a = b)) ∧
    (w.stdoutStream = some a → sys.stdoutSlot ≠ some a →
      (w.restore_streams sys).stdoutSlot = sys.stdoutSlot) ∧
    (w.stdoutStream = some a → sys.stdoutSlot = some a →
      (w.restore_streams sys).stdoutSlot = w.originalStdout) ∧
    (w.stderrStream = some b → sys.stderrSlot ≠ some b →
      (w.restore_streams sys).stderrSlot = sys.stderrSlot) ∧
    (w.stderrStream = some b → sys.stderrSlot = some b →
      (w.restore_streams sys).stderrSlot = w.originalStderr) ∧
    (w.captureStdout = true → w.stdoutStream = some a → sys.stdoutSlot ≠ some a →
      (w.set_capture sys false se).2.stdoutSlot = sys.stdoutSlot) ∧
    (w.captureStderr = true → w.stderrStream = some b → sys.stderrSlot ≠ some b →
      (w.set_capture sys so false).2.stderrSlot = sys.stderrSlot) := by
  refine ⟨⟨fun h1 h2 => ?_, fun h1 h2 => ?_⟩, ?_, ?_, ?_, ?_, ?_, ?_⟩
  · rw [h1] at h2; exact (Option.some.injEq a b ▸ h2).symm ▸ rfl
  · rw [h1] at h2; exact (Option.some.injEq a b ▸ h2).symm ▸ rfl
  · intro h1 h2
    cases h3 : w.stderrStream <;>
      simp [ConsoleOutputWidget.restore_streams, h1, h2, h3] <;>
        split <;> simp
  · intro h1 h2
    cases h3 : w.stderrStream <;>
      simp [ConsoleOutputWidget.restore_streams, h1, h2, h3] <;>
        split <;> simp
  · intro h1 h2
    cases h3 : w.stdoutStream <;>
      simp [ConsoleOutputWidget.restore_streams, h1, h2, h3] <;>
        split <;> simp [h2]
  · intro h1 h2
    cases h3 : w.stdoutStream <;>
      simp [ConsoleOutputWidget.restore_streams, h1, h2, h3] <;>
        split <;> simp [h2]
  · intro hc h1 h2
    cases se <;> cases h3 : w.captureStderr <;>
      simp [ConsoleOutputWidget.set_capture, hc, h1, h2, h3] <;>
        split <;> rfl
  · intro hc h1 h2
    cases so <;> cases h3 : w.captureStdout <;>
      by_cases hio : sys.stdoutSlot = w.stdoutStream <;>
        simp [ConsoleOutputWidget.set_capture, hc, h1, h2, h3, hio]

/-- C5 witness: a widget whose stdout slot still holds its adapter (object 2)
but whose stderr slot was taken over by a later redirector (object 9):
restoring reverts stdout to the original (object 0) and leaves stderr at the
redirector, and so does the disabling path of `set_capture`. -/
theorem slot_single_owner_guarded_restore_witness :
    (ConsoleOutputWidget.restore_streams sampleWidget
        { stdoutSlot := some 2, stderrSlot := some 9, nextId := 10 }).stdoutSlot
      = some 0 ∧
    (ConsoleOutputWidget.restore_streams sampleWidget
        { stdoutSlot := some 2, stderrSlot := some 9, nextId := 10 }).stderrSlot
      = some 9 ∧
    (ConsoleOutputWidget.set_capture sampleWidget
        { stdoutSlot := some 2, stderrSlot := some 9, nextId := 10 } false false).2.stderrSlot
      = some 9 := by
  have h := slot_single_owner_guarded_restore sampleWidget
    { stdoutSlot := some 2, stderrSlot := some 9, nextId := 10 } 2 3 false false
  exact ⟨h.2.2.1 rfl rfl, h.2.2.2.1 rfl (by decide), h.2.2.2.2.2.2 rfl rfl (by decide)⟩
